import Mathlib

/-!
# forge-deploy-cli: configuration model, validation and defaults

A shallow embedding of `pkg/models/models.go`, of the prompt flow of
`pkg/prompts/prompts.go` and of `runGenerate` in `cmd/generate.go`.  Go
strings are Lean `String`s, Go slices are `List`s, a Go `map[string]string` is
the list of its entries, and a method that mutates its receiver is a function
returning the new value.
-/

namespace ForgeDeploy

/-! ## Go library functions used by the model -/

/-- Go `strings.Contains(s, "/")`-style test for a one-character needle. -/
def stringsContainsChar (s : String) (c : Char) : Bool :=
  s.data.contains c

/-- Go `strings.HasPrefix(s, p)`. -/
def stringsHasPrefix (s p : String) : Bool :=
  p.data.isPrefixOf s.data

/-- Go `fmt.Sprintf("Site %d (%s): %s", n, name, err)`. -/
def sprintfSite (n : Nat) (name err : String) : String :=
  "Site " ++ toString n ++ " (" ++ name ++ "): " ++ err

/-! ## `pkg/models/models.go` -/

/-- SharedPath represents a shared path for zero-downtime deployments. -/
structure SharedPath where
  From : String := ""
  To : String := ""
deriving DecidableEq, Repr

/-- Process represents a background process. -/
structure Process where
  Name : String := ""
  Command : String := ""
deriving DecidableEq, Repr

/-- SiteConfig represents configuration for a single site. -/
structure SiteConfig where
  Name : String := ""
  DomainMode : String := ""
  WWWRedirectType : String := ""
  GithubBranch : String := ""
  RootDir : String := ""
  WebDir : String := ""
  ProjectType : String := ""
  PHPVersion : String := ""
  InstallComposerDependencies : Bool := false
  DeploymentScript : String := ""
  Processes : List Process := []
  LaravelScheduler : Bool := false
  Environment : String := ""
  EnvFile : String := ""
  Aliases : List String := []
  NginxTemplate : String := ""
  NginxTemplateVariables : List (String × String) := []
  NginxCustomConfig : String := ""
  Certificate : Bool := false
  Isolated : Bool := false
  IsolatedUser : String := ""
  ZeroDowntimeDeployments : Bool := false
  SharedPaths : List SharedPath := []
  CloneRepository : Bool := false
deriving DecidableEq, Repr

/-- Validate validates the site configuration (`SiteConfig.Validate`). -/
def SiteConfig.Validate (s : SiteConfig) : List String :=
  let errors : List String := []
  let errors :=
    if s.Name == "" then errors ++ ["Site name is required"] else errors
  let errors :=
    if s.DomainMode != "" && s.DomainMode != "on-forge" && s.DomainMode != "custom" then
      errors ++ ["domain_mode must be 'on-forge' or 'custom'"]
    else errors
  let errors :=
    if s.WWWRedirectType != "" && s.WWWRedirectType != "none"
        && s.WWWRedirectType != "from-www" && s.WWWRedirectType != "to-www" then
      errors ++ ["www_redirect_type must be 'none', 'from-www', or 'to-www'"]
    else errors
  let errors :=
    if s.ProjectType != "" && s.ProjectType != "laravel" && s.ProjectType != "other" then
      errors ++ ["project_type must be 'laravel' or 'other'"]
    else errors
  let errors :=
    if s.Isolated && s.IsolatedUser == "" then
      errors ++ ["isolated_user is required when isolated is true"]
    else errors
  let errors :=
    if s.PHPVersion != "" && !stringsHasPrefix s.PHPVersion "php" then
      errors ++ ["php_version must start with 'php' (e.g., 'php81', 'php84')"]
    else errors
  errors

/-- DeploymentConfig represents the complete deployment configuration. -/
structure DeploymentConfig where
  Organization : String := ""
  Server : String := ""
  GithubRepository : String := ""
  GithubBranch : String := ""
  Sites : List SiteConfig := []
deriving DecidableEq, Repr

/-- The inner loop of `DeploymentConfig.Validate`: every message of one site
is appended to `errors`, prefixed with the 1-based index and the site name. -/
def appendSiteErrors (errors : List String) (i : Nat) (site : SiteConfig) : List String :=
  let siteErrors := site.Validate
  siteErrors.foldl (fun errors err => errors ++ [sprintfSite (i + 1) site.Name err]) errors

/-- Validate validates the deployment configuration
(`DeploymentConfig.Validate`). -/
def DeploymentConfig.Validate (d : DeploymentConfig) : List String :=
  let errors : List String := []
  let errors :=
    if d.Organization == "" then errors ++ ["Organization is required"] else errors
  let errors :=
    if d.Server == "" then errors ++ ["Server is required"] else errors
  let errors :=
    if d.GithubRepository == "" then errors ++ ["GitHub repository is required"]
    else if !stringsContainsChar d.GithubRepository '/' then
      errors ++ ["GitHub repository must be in format 'owner/repo'"]
    else errors
  let errors :=
    if d.Sites.length == 0 then errors ++ ["At least one site must be configured"]
    else errors
  let errors :=
    d.Sites.enum.foldl (fun errors p => appendSiteErrors errors p.1 p.2) errors
  errors

/-- SetDefaults sets default values for optional fields
(`SiteConfig.SetDefaults`, returning the updated receiver). -/
def SiteConfig.SetDefaults (s : SiteConfig) : SiteConfig :=
  let s := if s.DomainMode == "" then { s with DomainMode := "on-forge" } else s
  let s := if s.WWWRedirectType == "" then { s with WWWRedirectType := "none" } else s
  let s := if s.RootDir == "" then { s with RootDir := "." } else s
  let s := if s.WebDir == "" then { s with WebDir := "public" } else s
  let s := if s.ProjectType == "" then { s with ProjectType := "laravel" } else s
  let s := if !s.CloneRepository then { s with CloneRepository := true } else s
  s

/-! ## The `survey` library, as used by `pkg/prompts/prompts.go`

The terminal is a finite stream of answers.  A prompt consumes answers from
the front of the stream and either delivers a value or fails; console output
(`fmt.Println`) is not part of the model. -/

/-- One answer delivered by the terminal to a `survey` prompt. -/
inductive Answer where
  /-- A line typed into an `Input` / `Multiline`, or the option picked in a `Select`. -/
  | text (s : String)
  /-- The yes / no given to a `Confirm`. -/
  | confirm (b : Bool)
  /-- The user aborts the prompt (`terminal.InterruptErr`). -/
  | interrupt
deriving DecidableEq, Repr

/-- A prompt: a computation over the remaining answers that may fail. -/
abbrev Ask (α : Type) : Type := StateT (List Answer) (Except String) α

/-- The prompt `survey.Confirm`: delivers the boolean answered. -/
def askConfirm : Ask Bool := fun answers =>
  match answers with
  | Answer.confirm b :: rest => .ok (b, rest)
  | Answer.text _ :: _ => .error "invalid answer"
  | Answer.interrupt :: _ => .error "interrupt"
  | [] => .error "EOF"

/-- The prompt `survey.Input` with default `dflt`: an empty line delivers the
default. -/
def askInput (dflt : String) : Ask String := fun answers =>
  match answers with
  | Answer.text s :: rest => .ok (if s == "" then dflt else s, rest)
  | Answer.confirm _ :: _ => .error "invalid answer"
  | Answer.interrupt :: _ => .error "interrupt"
  | [] => .error "EOF"

/-- The prompt `survey.Input` validated by `survey.Required`: an answer that
is empty after the default is applied is rejected and the question is asked
again. -/
def askInputRequired (dflt : String) : Ask String := fun answers =>
  match answers with
  | Answer.text s :: rest =>
      let v := if s == "" then dflt else s
      if v == "" then askInputRequired dflt rest else .ok (v, rest)
  | Answer.confirm _ :: _ => .error "invalid answer"
  | Answer.interrupt :: _ => .error "interrupt"
  | [] => .error "EOF"

/-- The prompt `survey.Multiline` with default `dflt`. -/
def askMultiline (dflt : String) : Ask String := fun answers =>
  match answers with
  | Answer.text s :: rest => .ok (if s == "" then dflt else s, rest)
  | Answer.confirm _ :: _ => .error "invalid answer"
  | Answer.interrupt :: _ => .error "interrupt"
  | [] => .error "EOF"

/-- The prompt `survey.Select`: delivers one of `options`; an empty line picks
the default. -/
def askSelect (options : List String) (dflt : String) : Ask String := fun answers =>
  match answers with
  | Answer.text s :: rest =>
      let v := if s == "" then dflt else s
      if options.contains v then .ok (v, rest) else .error "invalid option"
  | Answer.confirm _ :: _ => .error "invalid answer"
  | Answer.interrupt :: _ => .error "interrupt"
  | [] => .error "EOF"

/-- Go `m[key] = value` on a map kept as the list of its entries. -/
def mapSet (m : List (String × String)) (key value : String) : List (String × String) :=
  match m with
  | [] => [(key, value)]
  | (k, v) :: rest => if k == key then (k, value) :: rest else (k, v) :: mapSet rest key value

/-! ## `pkg/prompts/prompts.go`

The `map[string]interface{}` values passed between the prompts are records
with one field per key; a key that may be absent is an `Option`. -/

/-- The map returned by `PromptSiteBasicInfo`. -/
structure SiteBasicInfo where
  name : String
  domain_mode : String
  www_redirect_type : String
deriving DecidableEq, Repr

/-- The map returned by `PromptSiteRepositorySettings`. -/
structure RepositorySettings where
  github_branch : String
  root_dir : String
  web_dir : String
  clone_repository : Bool
deriving DecidableEq, Repr

/-- The map returned by `PromptSitePHPSettings`. -/
structure PHPSettings where
  project_type : String
  php_version : String
  install_composer_dependencies : Bool
deriving DecidableEq, Repr

/-- The map returned by `PromptNginxConfig`; every key may be absent. -/
structure NginxConfig where
  nginx_template : Option String := none
  nginx_template_variables : Option (List (String × String)) := none
  nginx_custom_config : Option String := none
deriving DecidableEq, Repr

/-- The map returned by `PromptIsolation`. -/
structure Isolation where
  isolated : Bool
  isolated_user : String
deriving DecidableEq, Repr

/-- The map returned by `PromptZeroDowntime`. -/
structure ZeroDowntime where
  zero_downtime_deployments : Bool
  shared_paths : List SharedPath
deriving DecidableEq, Repr

/-- PromptSiteBasicInfo prompts for basic site information. -/
def PromptSiteBasicInfo (_siteNumber : Nat) : Ask SiteBasicInfo := do
  let domainMode ← askSelect ["on-forge", "custom"] "on-forge"
  let name ← askInputRequired ""
  let wwwRedirect ← askSelect ["none", "from-www", "to-www"] "none"
  pure { name := name, domain_mode := domainMode, www_redirect_type := wwwRedirect }

/-- PromptSiteRepositorySettings prompts for repository settings. -/
def PromptSiteRepositorySettings (_defaultBranch : String) : Ask RepositorySettings := do
  let useCustomBranch ← askConfirm
  let githubBranch ← if useCustomBranch then askInputRequired "" else pure ""
  let rootDir ← askInput "."
  let webDir ← askInput "public"
  let cloneRepo ← askConfirm
  pure { github_branch := githubBranch, root_dir := rootDir, web_dir := webDir,
         clone_repository := cloneRepo }

/-- PromptSitePHPSettings prompts for PHP settings. -/
def PromptSitePHPSettings : Ask PHPSettings := do
  let projectType ← askSelect ["laravel", "other"] "laravel"
  let usePHPVersion ← askConfirm
  let phpVersion ← if usePHPVersion then askInput "php84" else pure ""
  let installComposer ← askConfirm
  pure { project_type := projectType, php_version := phpVersion,
         install_composer_dependencies := installComposer }

/-- PromptDeploymentScript prompts for deployment script. -/
def PromptDeploymentScript : Ask String := do
  let addScript ← askConfirm
  if !addScript then
    pure ""
  else
    let script ← askMultiline ""
    pure script

/-- PromptEnvironmentVariables prompts for environment variables; `readFile`
is the file system seen by `readFileContent`. -/
def PromptEnvironmentVariables (readFile : String → Except String String) :
    Ask (String × String) := do
  let envChoice ← askSelect ["none", "inline", "file"] "none"
  if envChoice == "inline" then
    let useTemplate ← askConfirm
    let envVars ←
      if useTemplate then do
        let templatePath ← askInputRequired ".env.example"
        match readFile templatePath with
        | .error _ => pure ""
        | .ok templateContent => pure templateContent
      else pure ""
    let envVars ← askMultiline envVars
    pure (envVars, "")
  else if envChoice == "file" then
    let envFile ← askInputRequired ""
    pure ("", envFile)
  else
    pure ("", "")

/-- The `for` loop of `PromptProcesses`.  The recursion is on `fuel`, which
the caller sets to the number of remaining answers; every iteration consumes
at least one answer, and a loop that reaches the end of the answers fails
with `EOF` as the prompt itself would. -/
def processesLoop (fuel : Nat) (processes : List Process) : Ask (List Process) :=
  match fuel with
  | 0 => throw "EOF"
  | fuel + 1 => do
    let name ← askInputRequired ""
    let command ← askInputRequired ""
    let processes := processes ++ [{ Name := name, Command := command }]
    let addAnother ← askConfirm
    if !addAnother then pure processes else processesLoop fuel processes

/-- PromptProcesses prompts for background processes. -/
def PromptProcesses : Ask (List Process) := do
  let addProcesses ← askConfirm
  if !addProcesses then
    pure []
  else
    processesLoop (← get).length []

/-- PromptScheduler prompts for Laravel scheduler. -/
def PromptScheduler : Ask Bool := do
  let enabled ← askConfirm
  pure enabled

/-- The `for` loop of `PromptAliases`. -/
def aliasesLoop (fuel : Nat) (aliases : List String) : Ask (List String) :=
  match fuel with
  | 0 => throw "EOF"
  | fuel + 1 => do
    let aliasDomain ← askInputRequired ""
    let aliases := aliases ++ [aliasDomain]
    let addAnother ← askConfirm
    if !addAnother then pure aliases else aliasesLoop fuel aliases

/-- PromptAliases prompts for domain aliases. -/
def PromptAliases : Ask (List String) := do
  let addAliases ← askConfirm
  if !addAliases then
    pure []
  else
    aliasesLoop (← get).length []

/-- The `for` loop of `PromptNginxConfig` filling the template variables. -/
def nginxVariablesLoop (fuel : Nat) (templateVars : List (String × String)) :
    Ask (List (String × String)) :=
  match fuel with
  | 0 => throw "EOF"
  | fuel + 1 => do
    let key ← askInputRequired ""
    let value ← askInputRequired ""
    let templateVars := mapSet templateVars key value
    let addAnother ← askConfirm
    if !addAnother then pure templateVars else nginxVariablesLoop fuel templateVars

/-- PromptNginxConfig prompts for Nginx configuration. -/
def PromptNginxConfig : Ask NginxConfig := do
  let configChoice ← askSelect ["default", "template", "custom-file"] "default"
  let result : NginxConfig := {}
  if configChoice == "template" then
    let templateName ← askInputRequired ""
    let result := { result with nginx_template := some templateName }
    let addVars ← askConfirm
    if addVars then
      let templateVars ← nginxVariablesLoop (← get).length []
      pure { result with nginx_template_variables := some templateVars }
    else
      pure result
  else if configChoice == "custom-file" then
    let customConfig ← askInputRequired ""
    pure { result with nginx_custom_config := some customConfig }
  else
    pure result

/-- PromptSSLCertificate prompts for SSL certificate. -/
def PromptSSLCertificate : Ask Bool := do
  let enabled ← askConfirm
  pure enabled

/-- PromptIsolation prompts for site isolation. -/
def PromptIsolation : Ask Isolation := do
  let isolated ← askConfirm
  let isolatedUser ← if isolated then askInputRequired "" else pure ""
  pure { isolated := isolated, isolated_user := isolatedUser }

/-- The `for` loop of `PromptZeroDowntime` collecting the shared paths. -/
def sharedPathsLoop (fuel : Nat) (sharedPaths : List SharedPath) : Ask (List SharedPath) :=
  match fuel with
  | 0 => throw "EOF"
  | fuel + 1 => do
    let pathType ← askSelect ["simple", "custom"] "simple"
    let sharedPaths ←
      if pathType == "simple" then do
        let path ← askInputRequired ""
        pure (sharedPaths ++ [{ From := path }])
      else do
        let fromPath ← askInputRequired ""
        let toPath ← askInputRequired ""
        pure (sharedPaths ++ [{ From := fromPath, To := toPath }])
    let addAnother ← askConfirm
    if !addAnother then pure sharedPaths else sharedPathsLoop fuel sharedPaths

/-- PromptZeroDowntime prompts for zero-downtime deployment settings. -/
def PromptZeroDowntime : Ask ZeroDowntime := do
  let zeroDowntime ← askConfirm
  let sharedPaths ←
    if zeroDowntime then do
      let addPaths ← askConfirm
      if addPaths then sharedPathsLoop (← get).length [] else pure []
    else pure []
  pure { zero_downtime_deployments := zeroDowntime, shared_paths := sharedPaths }

/-- The tail of `PromptCompleteSite`: builds the site from the collected
answers and calls `SetDefaults` on it. -/
def buildSite (basicInfo : SiteBasicInfo) (repoSettings : RepositorySettings)
    (phpSettings : PHPSettings) (deploymentScript environment envFile : String)
    (processes : List Process) (scheduler : Bool) (aliases : List String)
    (nginxConfig : NginxConfig) (certificate : Bool) (isolation : Isolation)
    (zeroDowntime : ZeroDowntime) : SiteConfig :=
  let site : SiteConfig :=
    { Name := basicInfo.name
      DomainMode := basicInfo.domain_mode
      WWWRedirectType := basicInfo.www_redirect_type
      RootDir := repoSettings.root_dir
      WebDir := repoSettings.web_dir
      CloneRepository := repoSettings.clone_repository
      ProjectType := phpSettings.project_type
      InstallComposerDependencies := phpSettings.install_composer_dependencies
      DeploymentScript := deploymentScript
      Environment := environment
      EnvFile := envFile
      Processes := processes
      LaravelScheduler := scheduler
      Aliases := aliases
      Certificate := certificate
      Isolated := isolation.isolated
      ZeroDowntimeDeployments := zeroDowntime.zero_downtime_deployments }
  let site :=
    if repoSettings.github_branch != "" then
      { site with GithubBranch := repoSettings.github_branch }
    else site
  let site :=
    if phpSettings.php_version != "" then { site with PHPVersion := phpSettings.php_version }
    else site
  let site :=
    if isolation.isolated_user != "" then { site with IsolatedUser := isolation.isolated_user }
    else site
  let site :=
    match nginxConfig.nginx_template with
    | some nginxTemplate => { site with NginxTemplate := nginxTemplate }
    | none => site
  let site :=
    match nginxConfig.nginx_template_variables with
    | some nginxVars => { site with NginxTemplateVariables := nginxVars }
    | none => site
  let site :=
    match nginxConfig.nginx_custom_config with
    | some nginxCustom => { site with NginxCustomConfig := nginxCustom }
    | none => site
  let site := { site with SharedPaths := zeroDowntime.shared_paths }
  site.SetDefaults

/-- PromptCompleteSite orchestrates all site prompts. -/
def PromptCompleteSite (readFile : String → Except String String) (defaultBranch : String)
    (siteNumber : Nat) : Ask SiteConfig := do
  let basicInfo ← PromptSiteBasicInfo siteNumber
  let repoSettings ← PromptSiteRepositorySettings defaultBranch
  let phpSettings ← PromptSitePHPSettings
  let deploymentScript ← PromptDeploymentScript
  let (environment, envFile) ← PromptEnvironmentVariables readFile
  let processes ← PromptProcesses
  let scheduler ← PromptScheduler
  let aliases ← PromptAliases
  let nginxConfig ← PromptNginxConfig
  let certificate ← PromptSSLCertificate
  let isolation ← PromptIsolation
  let zeroDowntime ← PromptZeroDowntime
  pure (buildSite basicInfo repoSettings phpSettings deploymentScript environment envFile
    processes scheduler aliases nginxConfig certificate isolation zeroDowntime)

/-- A file system in which no file can be read. -/
def noFiles : String → Except String String := fun _ => .error "no such file"

/-- A complete run of the site prompts for a site `app` in which the answer
to "Clone repository during site creation?" is no. -/
def cloneDeclinedAnswers : List Answer :=
  [ .text "on-forge", .text "app", .text "none",
    .confirm false, .text "", .text "", .confirm false,
    .text "laravel", .confirm false, .confirm false,
    .confirm false,
    .text "none",
    .confirm false,
    .confirm false,
    .confirm false,
    .text "default",
    .confirm false,
    .confirm false,
    .confirm false ]

/-! ## The invariants of the data model, as the specification words them -/

/-- The site invariants other than the required name: each enum field unset
or in its option set, `phpVersion` empty or starting with `php`, and
`isolated` implies `isolatedUser` non-empty. -/
def SiteFieldInvariant (s : SiteConfig) : Prop :=
  (s.DomainMode = "" ∨ s.DomainMode = "on-forge" ∨ s.DomainMode = "custom") ∧
  (s.WWWRedirectType = "" ∨ s.WWWRedirectType = "none" ∨ s.WWWRedirectType = "from-www"
    ∨ s.WWWRedirectType = "to-www") ∧
  (s.ProjectType = "" ∨ s.ProjectType = "laravel" ∨ s.ProjectType = "other") ∧
  (s.PHPVersion = "" ∨ "php".data <+: s.PHPVersion.data) ∧
  (s.Isolated = true → s.IsolatedUser ≠ "")

instance : DecidablePred SiteFieldInvariant := fun s => by
  unfold SiteFieldInvariant; infer_instance

/-- The site invariants: name non-empty and `SiteFieldInvariant`. -/
def SiteInvariant (s : SiteConfig) : Prop :=
  s.Name ≠ "" ∧ SiteFieldInvariant s

instance : DecidablePred SiteInvariant := fun s => by
  unfold SiteInvariant; infer_instance

/-- The number of `/` characters of a repository string. -/
def slashCount (repo : String) : Nat :=
  repo.data.count '/'

/-- The model invariants: organization and server non-empty, repository with
exactly one `/`, at least one site, every site satisfying `SiteInvariant`. -/
def DeploymentInvariant (d : DeploymentConfig) : Prop :=
  d.Organization ≠ "" ∧ d.Server ≠ "" ∧ slashCount d.GithubRepository = 1 ∧
  d.Sites ≠ [] ∧ ∀ s ∈ d.Sites, SiteInvariant s

instance : DecidablePred DeploymentInvariant := fun d => by
  unfold DeploymentInvariant; infer_instance

/-- The root-level violations, in the order organization, server, repository,
site count. -/
def rootViolations (d : DeploymentConfig) : List String :=
  (if d.Organization = "" then ["Organization is required"] else []) ++
  (if d.Server = "" then ["Server is required"] else []) ++
  (if d.GithubRepository = "" then ["GitHub repository is required"]
   else if '/' ∈ d.GithubRepository.data then []
   else ["GitHub repository must be in format 'owner/repo'"]) ++
  (if d.Sites = [] then ["At least one site must be configured"] else [])

/-- The site violations of the sites `sites`, the first of which has 1-based
index `i`: each message `m` of a site named `name` at index `i` is rendered
`Site i (name): m`. -/
def siteViolationsFrom (i : Nat) (sites : List SiteConfig) : List String :=
  match sites with
  | [] => []
  | site :: rest =>
      site.Validate.map (fun m => "Site " ++ toString i ++ " (" ++ site.Name ++ "): " ++ m)
        ++ siteViolationsFrom (i + 1) rest

/-- The fields of a site that the site checks read. -/
def checkedFields (s : SiteConfig) :
    String × String × String × String × String × Bool × String :=
  (s.Name, s.DomainMode, s.WWWRedirectType, s.ProjectType, s.PHPVersion, s.Isolated,
    s.IsolatedUser)

/-- A model with valid root fields and the given sites. -/
def acmeConfig (sites : List SiteConfig) : DeploymentConfig :=
  { Organization := "acme", Server := "web1", GithubRepository := "acme/site",
    GithubBranch := "main", Sites := sites }

/-- A model with a valid organization, server and site whose repository
string has two `/`. -/
def twoSlashConfig : DeploymentConfig :=
  { Organization := "acme", Server := "web1", GithubRepository := "a/b/c",
    GithubBranch := "main", Sites := [{ Name := "app" }] }

/-- A site with the five defaulted fields of `s` filled in and every other
field as in `s`. -/
def withDefaultedFields (s : SiteConfig) : SiteConfig :=
  { s with
    DomainMode := if s.DomainMode = "" then "on-forge" else s.DomainMode
    WWWRedirectType := if s.WWWRedirectType = "" then "none" else s.WWWRedirectType
    RootDir := if s.RootDir = "" then "." else s.RootDir
    WebDir := if s.WebDir = "" then "public" else s.WebDir
    ProjectType := if s.ProjectType = "" then "laravel" else s.ProjectType }

/-! ## `SharedPath.MarshalYAML` -/

/-- The value a `MarshalYAML` method hands to the YAML encoder: a string or a
`map[string]string`. -/
inductive YAMLValue where
  | scalar (s : String)
  | mapping (m : List (String × String))
deriving DecidableEq, Repr

/-- MarshalYAML implements custom YAML marshaling (`SharedPath.MarshalYAML`);
the second component is the returned error. -/
def SharedPath.MarshalYAML (sp : SharedPath) : YAMLValue × Option String :=
  if sp.To == "" || sp.From == sp.To then
    (YAMLValue.scalar sp.From, none)
  else
    (YAMLValue.mapping (mapSet (mapSet [] "from" sp.From) "to" sp.To), none)

/-! ## `cmd/generate.go` and `cmd/root.go` -/

/-- PromptBaseConfig prompts for base deployment configuration. -/
def PromptBaseConfig : Ask DeploymentConfig := do
  let organization ← askInputRequired ""
  let server ← askInputRequired ""
  let repository ← askInputRequired ""
  let branch ← askInputRequired "main"
  pure { Organization := organization, Server := server, GithubRepository := repository,
         GithubBranch := branch }

/-- Go `strconv` reading of a decimal digit string, most significant digit
first. -/
def digitsValue (acc : Nat) (cs : List Char) : Option Nat :=
  match cs with
  | [] => some acc
  | c :: rest =>
      if c.isDigit then digitsValue (acc * 10 + (c.toNat - '0'.toNat)) rest else none

/-- The conversion `survey` applies to an answer written into an `int`: an
optional sign followed by at least one decimal digit, within 64 bits. -/
def parseInt (s : String) : Option Int :=
  let unsigned (cs : List Char) : Option Nat :=
    match cs with
    | [] => none
    | _ :: _ => digitsValue 0 cs
  let value : Option Int :=
    match s.data with
    | '-' :: cs => (unsigned cs).map (fun n => - (n : Int))
    | '+' :: cs => (unsigned cs).map (fun n => (n : Int))
    | cs => (unsigned cs).map (fun n => (n : Int))
  match value with
  | some v => if - (2 : Int) ^ 63 ≤ v ∧ v < (2 : Int) ^ 63 then some v else none
  | none => none

/-- The prompt `survey.Input` with default `dflt` answered into an `int`. -/
def askInt (dflt : String) : Ask Int := fun answers =>
  match askInput dflt answers with
  | .error e => .error e
  | .ok (s, rest) =>
      match parseInt s with
      | some n => .ok (n, rest)
      | none => .error "invalid integer"

/-- The flags of the `generate` command, with their defaults. -/
structure Flags where
  outputDir : String := "."
  workflowFilename : String := "deploy.yml"
  forgeConfigFile : String := "forge-deploy.yml"
  triggerBranch : String := "main"
deriving DecidableEq, Repr

/-- A file-system operation issued by `runGenerate`. -/
inductive FsOp where
  /-- The call `os.MkdirAll(path, 0755)`. -/
  | mkdirAll (path : String)
  /-- The call `os.WriteFile(path, data, 0644)`. -/
  | writeFile (path : String) (data : String)
deriving DecidableEq, Repr

/-- What `runGenerate` reaches outside `cmd` and `pkg/prompts`: the files read
by the prompts, the outcome of a file-system operation given the operations
issued before it (`none` is success), `filepath.Join`, and the two functions
of `pkg/generators`. -/
structure World where
  readFile : String → Except String String
  fs : List FsOp → FsOp → Option String
  filepathJoin : List String → String
  GenerateForgeDeployYAML : DeploymentConfig → String × Option String
  GenerateGitHubWorkflow : DeploymentConfig → String → String → String → String

/-- The outcome of `runGenerate`: the returned error (`none` is `nil`) and the
file-system operations it issued, in order. -/
structure RunResult where
  err : Option String
  ops : List FsOp
deriving DecidableEq, Repr

/-- The site loop of `runGenerate`: `remaining` iterations are left, `i` is
the loop counter, `sites` is `config.Sites`. -/
def promptSites (readFile : String → Except String String) (defaultBranch : String)
    (remaining i : Nat) (sites : List SiteConfig) : Ask (List SiteConfig) :=
  match remaining with
  | 0 => pure sites
  | remaining + 1 => fun answers =>
      match PromptCompleteSite readFile defaultBranch (i + 1) answers with
      | .error e => .error ("failed to configure site " ++ toString (i + 1) ++ ": " ++ e)
      | .ok (site, rest) =>
          promptSites readFile defaultBranch remaining (i + 1) (sites ++ [site]) rest

/-- The first part of `runGenerate`: the base configuration, the number of
sites and the sites are asked for; the result is the model handed to
`Validate`. -/
def assembleConfig (readFile : String → Except String String) : Ask DeploymentConfig :=
  fun answers =>
    match PromptBaseConfig answers with
    | .error e => .error ("failed to get base config: " ++ e)
    | .ok (config, rest) =>
        match askInt "1" rest with
        | .error e => .error ("failed to get site count: " ++ e)
        | .ok (siteCount, rest) =>
            match promptSites readFile config.GithubBranch siteCount.toNat 0 config.Sites
                rest with
            | .error e => .error e
            | .ok (sites, rest) => .ok ({ config with Sites := sites }, rest)

/-- The last part of `runGenerate`, after validation succeeded: the output
directory is created and the two files are generated and written. -/
def generateFiles (w : World) (flags : Flags) (config : DeploymentConfig) : RunResult :=
  let ops : List FsOp := []
  let mkOutput := FsOp.mkdirAll flags.outputDir
  match w.fs ops mkOutput with
  | some e => { err := some ("failed to create output directory: " ++ e), ops := ops ++ [mkOutput] }
  | none =>
  let ops := ops ++ [mkOutput]
  let forgeConfigPath := w.filepathJoin [flags.outputDir, flags.forgeConfigFile]
  match w.GenerateForgeDeployYAML config with
  | (_, some e) => { err := some ("failed to generate forge config: " ++ e), ops := ops }
  | (forgeConfig, none) =>
  let writeConfig := FsOp.writeFile forgeConfigPath forgeConfig
  match w.fs ops writeConfig with
  | some e => { err := some ("failed to write forge config: " ++ e), ops := ops ++ [writeConfig] }
  | none =>
  let ops := ops ++ [writeConfig]
  let workflowDir := w.filepathJoin [flags.outputDir, ".github", "workflows"]
  let mkWorkflow := FsOp.mkdirAll workflowDir
  match w.fs ops mkWorkflow with
  | some e =>
      { err := some ("failed to create workflow directory: " ++ e), ops := ops ++ [mkWorkflow] }
  | none =>
  let ops := ops ++ [mkWorkflow]
  let workflowPath := w.filepathJoin [workflowDir, flags.workflowFilename]
  let workflow :=
    w.GenerateGitHubWorkflow config "Deploy to Forge" flags.triggerBranch flags.forgeConfigFile
  let writeWorkflow := FsOp.writeFile workflowPath workflow
  match w.fs ops writeWorkflow with
  | some e => { err := some ("failed to write workflow: " ++ e), ops := ops ++ [writeWorkflow] }
  | none => { err := none, ops := ops ++ [writeWorkflow] }

/-- The function `runGenerate` of the `generate` command. -/
def runGenerate (w : World) (flags : Flags) (answers : List Answer) : RunResult :=
  match assembleConfig w.readFile answers with
  | .error e => { err := some e, ops := [] }
  | .ok (config, _) =>
      let errors := config.Validate
      if errors.length > 0 then
        { err := some "configuration validation failed", ops := [] }
      else
        generateFiles w flags config

/-- Execute runs the root command: the exit status of the process. -/
def Execute (w : World) (flags : Flags) (answers : List Answer) : Nat :=
  match (runGenerate w flags answers).err with
  | some _ => 1
  | none => 0

/-- A complete run of `generate` in which the number of sites asked for is 0. -/
def noSiteAnswers : List Answer :=
  [ .text "acme", .text "web1", .text "acme/site", .text "", .text "0" ]

/-- A complete run of `generate` with the one site of `cloneDeclinedAnswers`. -/
def oneSiteAnswers : List Answer :=
  [ .text "acme", .text "web1", .text "acme/site", .text "", .text "" ] ++ cloneDeclinedAnswers

/-- A world in which every file-system operation succeeds, paths are joined
with `/` and the generators return fixed texts. -/
def plainWorld : World :=
  { readFile := noFiles
    fs := fun _ _ => none
    filepathJoin := fun parts => String.intercalate "/" parts
    GenerateForgeDeployYAML := fun _ => ("forge", none)
    GenerateGitHubWorkflow := fun _ _ _ _ => "workflow" }

/-- A run of the environment prompt choosing inline variables, no template. -/
def inlineEnvAnswers : List Answer :=
  [ .text "inline", .confirm false, .text "APP_ENV=production" ]

/-- A run of the environment prompt choosing a file. -/
def fileEnvAnswers : List Answer :=
  [ .text "file", .text ".env.production" ]

/-- The run `cloneDeclinedAnswers` with the environment given inline. -/
def inlineEnvSiteAnswers : List Answer :=
  [ .text "on-forge", .text "app", .text "none",
    .confirm false, .text "", .text "", .confirm true,
    .text "laravel", .confirm false, .confirm false,
    .confirm false,
    .text "inline", .confirm false, .text "APP_ENV=production",
    .confirm false,
    .confirm false,
    .confirm false,
    .text "default",
    .confirm false,
    .confirm false,
    .confirm false ]


/-! ## `pkg/generators`

The package is not among the sources; its two functions are modelled from the
specification of the renderers.  The key names and `omitempty` rules are
those of the `yaml` tags of `pkg/models/models.go`. -/

/-- The order in which the entries of a map are written: by ascending key. -/
def entryLE (a b : String × String) : Prop :=
  a.1 ≤ b.1

instance : DecidableRel entryLE := fun a b => by
  unfold entryLE; infer_instance

instance : IsTotal (String × String) entryLE :=
  ⟨fun a b => le_total a.1 b.1⟩

instance : IsTrans (String × String) entryLE :=
  ⟨fun _ _ _ hab hbc => le_trans hab hbc⟩

/-- Two entries are in strict key order, or are the same entry. -/
def entryLT (a b : String × String) : Prop :=
  a.1 < b.1 ∨ a = b

instance : IsAntisymm (String × String) entryLT :=
  ⟨fun _ _ hab hba =>
    hab.elim (fun h1 => hba.elim (fun h2 => absurd h1 (lt_asymm h2)) Eq.symm) id⟩

/-- Modelled from the spec: the renderers use "no random ordering", so the
entries of an unordered map are written in a fixed order, ascending by key. -/
def sortedEntries (m : List (String × String)) : List (String × String) :=
  m.insertionSort entryLE

/-- Modelled from the spec: a `key: value` line, omitted when the value is
empty ("omitting any field left at its zero/empty value"). -/
def yamlString (indent key value : String) : List String :=
  if value = "" then [] else [indent ++ key ++ ": " ++ value]

/-- Modelled from the spec: a `key: true` line, omitted when the flag is
false. -/
def yamlBool (indent key : String) (value : Bool) : List String :=
  if value then [indent ++ key ++ ": true"] else []

/-- Modelled from the spec: a list of strings under `key`, in the order
provided, omitted when empty. -/
def yamlStrings (indent key : String) (items : List String) : List String :=
  if items = [] then [] else (indent ++ key ++ ":") :: items.map (fun a => indent ++ "  - " ++ a)

/-- Modelled from the spec: the entries of a map, one `key: value` line each,
in the order of `sortedEntries`. -/
def yamlEntries (indent : String) (m : List (String × String)) : List String :=
  (sortedEntries m).map (fun e => indent ++ e.1 ++ ": " ++ e.2)

/-- Modelled from the spec: a map under `key`, omitted when empty. -/
def yamlMap (indent key : String) (m : List (String × String)) : List String :=
  if m.length = 0 then [] else (indent ++ key ++ ":") :: yamlEntries (indent ++ "  ") m

/-- Modelled from the spec: one process of the `processes` list. -/
def yamlProcess (p : Process) : List String :=
  ["      - name: " ++ p.Name, "        command: " ++ p.Command]

/-- Modelled from the spec: the processes, in the order provided. -/
def yamlProcesses (ps : List Process) : List String :=
  match ps with
  | [] => []
  | p :: rest => yamlProcess p ++ yamlProcesses rest

/-- Modelled from the spec: one item of `shared_paths`, given the value its
`MarshalYAML` returned: a scalar path, or the entries of a from/to map. -/
def yamlSharedPathValue (v : YAMLValue) : List String :=
  match v with
  | YAMLValue.scalar path => ["      - " ++ path]
  | YAMLValue.mapping m => "      -" :: yamlEntries "        " m

/-- Modelled from the spec: the shared paths, in the order provided, each by
the degenerate-form rule of `SharedPath.MarshalYAML`. -/
def yamlSharedPaths (sps : List SharedPath) : List String :=
  match sps with
  | [] => []
  | sp :: rest => yamlSharedPathValue sp.MarshalYAML.1 ++ yamlSharedPaths rest

/-- Modelled from the spec: one site of the deployment document, its fields
in the order of `SiteConfig`. -/
def yamlSite (s : SiteConfig) : List String :=
  ["  - name: " ++ s.Name] ++
  yamlString "    " "domain_mode" s.DomainMode ++
  yamlString "    " "www_redirect_type" s.WWWRedirectType ++
  yamlString "    " "github_branch" s.GithubBranch ++
  yamlString "    " "root_dir" s.RootDir ++
  yamlString "    " "web_dir" s.WebDir ++
  yamlString "    " "project_type" s.ProjectType ++
  yamlString "    " "php_version" s.PHPVersion ++
  yamlBool "    " "install_composer_dependencies" s.InstallComposerDependencies ++
  yamlString "    " "deployment_script" s.DeploymentScript ++
  (if s.Processes = [] then [] else "    processes:" :: yamlProcesses s.Processes) ++
  yamlBool "    " "laravel_scheduler" s.LaravelScheduler ++
  yamlString "    " "environment" s.Environment ++
  yamlString "    " "env_file" s.EnvFile ++
  yamlStrings "    " "aliases" s.Aliases ++
  yamlString "    " "nginx_template" s.NginxTemplate ++
  yamlMap "    " "nginx_template_variables" s.NginxTemplateVariables ++
  yamlString "    " "nginx_custom_config" s.NginxCustomConfig ++
  yamlBool "    " "certificate" s.Certificate ++
  yamlBool "    " "isolated" s.Isolated ++
  yamlString "    " "isolated_user" s.IsolatedUser ++
  yamlBool "    " "zero_downtime_deployments" s.ZeroDowntimeDeployments ++
  (if s.SharedPaths = [] then [] else "    shared_paths:" :: yamlSharedPaths s.SharedPaths) ++
  yamlBool "    " "clone_repository" s.CloneRepository

/-- Modelled from the spec: the sites of the deployment document, in the
order provided. -/
def yamlSites (sites : List SiteConfig) : List String :=
  match sites with
  | [] => []
  | s :: rest => yamlSite s ++ yamlSites rest

/-- Modelled from the spec: `GenerateForgeDeployYAML` (the spec's
`RenderDeploymentDocument`), absent from the sources: a document mirroring the
model one-to-one, omitting empty fields, preserving list order, with no error
path. -/
def GenerateForgeDeployYAML (d : DeploymentConfig) : String × Option String :=
  (String.intercalate "\n"
    (["organization: " ++ d.Organization,
      "server: " ++ d.Server,
      "github_repository: " ++ d.GithubRepository,
      "github_branch: " ++ d.GithubBranch,
      "sites:"] ++ yamlSites d.Sites) ++ "\n", none)

/-- Modelled from the spec: `GenerateGitHubWorkflow` (the spec's
`RenderPipelineDocument`), absent from the sources: a pipeline named
`pipelineTitle`, triggered by pushes to `triggerBranch`, whose steps invoke
the deployment tool on `configFileName`; the step list is a fixed template. -/
def GenerateGitHubWorkflow (_config : DeploymentConfig)
    (pipelineTitle triggerBranch configFileName : String) : String :=
  String.intercalate "\n"
    ["name: " ++ pipelineTitle,
     "on:",
     "  push:",
     "    branches:",
     "      - " ++ triggerBranch,
     "jobs:",
     "  deploy:",
     "    runs-on: ubuntu-latest",
     "    steps:",
     "      - name: Checkout",
     "        uses: actions/checkout",
     "      - name: Deploy",
     "        uses: forge-deploy",
     "        with:",
     "          deployment_file: " ++ configFileName] ++ "\n"

/-- Two sites that are the same except for the order in which
`nginxTemplateVariables`, a map with distinct keys, lists its entries. -/
def SiteConfig.SameUpToMapOrder (s t : SiteConfig) : Prop :=
  t = { s with NginxTemplateVariables := t.NginxTemplateVariables } ∧
  s.NginxTemplateVariables.Perm t.NginxTemplateVariables ∧
  (s.NginxTemplateVariables.map Prod.fst).Nodup

/-- Two models that are the same except for the order in which the maps of
their sites list their entries. -/
def DeploymentConfig.SameUpToMapOrder (d e : DeploymentConfig) : Prop :=
  e = { d with Sites := e.Sites } ∧ List.Forall₂ SiteConfig.SameUpToMapOrder d.Sites e.Sites

/-- A site with two template variables and a from/to shared path. -/
def templatedSite (templateVars : List (String × String)) : SiteConfig :=
  { Name := "app", DomainMode := "on-forge", WWWRedirectType := "none", RootDir := ".",
    WebDir := "public", ProjectType := "laravel", NginxTemplate := "proxy",
    NginxTemplateVariables := templateVars, ZeroDowntimeDeployments := true,
    SharedPaths := [{ From := "storage", To := "shared/storage" }], CloneRepository := true }


/-! ## Auxiliary lemmas -/

theorem stringsHasPrefix_iff (s p : String) :
    stringsHasPrefix s p = true ↔ p.data <+: s.data := by
  unfold stringsHasPrefix
  exact List.isPrefixOf_iff_prefix

theorem stringsContainsChar_iff (s : String) (c : Char) :
    stringsContainsChar s c = true ↔ c ∈ s.data := by
  unfold stringsContainsChar
  simp

theorem siteValidate_parts_bool (s : SiteConfig) :
    s.Validate =
      (if s.Name == "" then ["Site name is required"] else []) ++
      (if s.DomainMode != "" && s.DomainMode != "on-forge" && s.DomainMode != "custom" then
        ["domain_mode must be 'on-forge' or 'custom'"] else []) ++
      (if s.WWWRedirectType != "" && s.WWWRedirectType != "none"
          && s.WWWRedirectType != "from-www" && s.WWWRedirectType != "to-www" then
        ["www_redirect_type must be 'none', 'from-www', or 'to-www'"] else []) ++
      (if s.ProjectType != "" && s.ProjectType != "laravel" && s.ProjectType != "other" then
        ["project_type must be 'laravel' or 'other'"] else []) ++
      (if s.Isolated && s.IsolatedUser == "" then
        ["isolated_user is required when isolated is true"] else []) ++
      (if s.PHPVersion != "" && !stringsHasPrefix s.PHPVersion "php" then
        ["php_version must start with 'php' (e.g., 'php81', 'php84')"] else []) := by
  unfold SiteConfig.Validate
  generalize (s.Name == "") = b1
  generalize (s.DomainMode != "" && s.DomainMode != "on-forge" && s.DomainMode != "custom") = b2
  generalize (s.WWWRedirectType != "" && s.WWWRedirectType != "none"
          && s.WWWRedirectType != "from-www" && s.WWWRedirectType != "to-www") = b3
  generalize (s.ProjectType != "" && s.ProjectType != "laravel" && s.ProjectType != "other") = b4
  generalize (s.Isolated && s.IsolatedUser == "") = b5
  generalize (s.PHPVersion != "" && !stringsHasPrefix s.PHPVersion "php") = b6
  cases b1 <;> cases b2 <;> cases b3 <;> cases b4 <;> cases b5 <;> cases b6 <;> rfl

/-- The checks of `SiteConfig.Validate` as a concatenation of six independent
parts. -/
theorem siteValidate_parts (s : SiteConfig) :
    s.Validate =
      (if s.Name = "" then ["Site name is required"] else []) ++
      (if s.DomainMode ≠ "" ∧ s.DomainMode ≠ "on-forge" ∧ s.DomainMode ≠ "custom" then
        ["domain_mode must be 'on-forge' or 'custom'"] else []) ++
      (if s.WWWRedirectType ≠ "" ∧ s.WWWRedirectType ≠ "none" ∧ s.WWWRedirectType ≠ "from-www"
          ∧ s.WWWRedirectType ≠ "to-www" then
        ["www_redirect_type must be 'none', 'from-www', or 'to-www'"] else []) ++
      (if s.ProjectType ≠ "" ∧ s.ProjectType ≠ "laravel" ∧ s.ProjectType ≠ "other" then
        ["project_type must be 'laravel' or 'other'"] else []) ++
      (if s.Isolated = true ∧ s.IsolatedUser = "" then
        ["isolated_user is required when isolated is true"] else []) ++
      (if s.PHPVersion ≠ "" ∧ ¬ "php".data <+: s.PHPVersion.data then
        ["php_version must start with 'php' (e.g., 'php81', 'php84')"] else []) := by
  have hp : stringsHasPrefix s.PHPVersion "php" = true ↔ "php".data <+: s.PHPVersion.data :=
    stringsHasPrefix_iff _ _
  rw [siteValidate_parts_bool]
  simp only [bne_iff_ne, ne_eq, Bool.and_eq_true, beq_iff_eq, Bool.not_eq_true',
    ← Bool.not_eq_true, hp, and_assoc]


theorem foldl_append_singleton {α β : Type} (f : β → α) (l : List β) (acc : List α) :
    l.foldl (fun errors err => errors ++ [f err]) acc = acc ++ l.map f := by
  induction l generalizing acc with
  | nil => simp
  | cons x xs ih => simp [ih]

theorem appendSiteErrors_eq (errors : List String) (i : Nat) (site : SiteConfig) :
    appendSiteErrors errors i site =
      errors ++ site.Validate.map
        (fun m => "Site " ++ toString (i + 1) ++ " (" ++ site.Name ++ "): " ++ m) := by
  unfold appendSiteErrors
  exact foldl_append_singleton (fun err => sprintfSite (i + 1) site.Name err) _ _

theorem foldl_sites_eq (sites : List SiteConfig) (n : Nat) (acc : List String) :
    (sites.enumFrom n).foldl (fun errors p => appendSiteErrors errors p.1 p.2) acc =
      acc ++ siteViolationsFrom (n + 1) sites := by
  induction sites generalizing n acc with
  | nil => simp [siteViolationsFrom]
  | cons s rest ih =>
    rw [List.enumFrom_cons, List.foldl_cons, ih, appendSiteErrors_eq]
    simp only [siteViolationsFrom, List.append_assoc]

/-- The root checks of `DeploymentConfig.Validate` followed by the site loop. -/
theorem deploymentValidate_eq (d : DeploymentConfig) :
    d.Validate = rootViolations d ++ siteViolationsFrom 1 d.Sites := by
  unfold DeploymentConfig.Validate rootViolations
  simp only [List.enum, foldl_sites_eq]
  have hc : stringsContainsChar d.GithubRepository '/' = false ↔
      '/' ∉ d.GithubRepository.data := by
    rw [← stringsContainsChar_iff, Bool.not_eq_true]
  by_cases h1 : d.Organization = "" <;> by_cases h2 : d.Server = "" <;>
    by_cases h3 : d.GithubRepository = "" <;> by_cases h4 : '/' ∈ d.GithubRepository.data <;>
    by_cases h5 : d.Sites = [] <;>
    simp [h1, h2, h3, h4, h5, hc]

theorem ite_singleton_eq_nil {p : Prop} [Decidable p] (m : String) :
    (if p then [m] else []) = [] ↔ ¬ p := by
  by_cases h : p <;> simp [h]

theorem siteValidate_nil_iff (s : SiteConfig) : s.Validate = [] ↔ SiteInvariant s := by
  rw [siteValidate_parts]
  unfold SiteInvariant SiteFieldInvariant
  simp only [List.append_eq_nil, ite_singleton_eq_nil, ne_eq, not_and_or, not_not, and_assoc,
    imp_iff_not_or]
  constructor
  · rintro ⟨h1, h2, h3, h4, h5, h6⟩
    exact ⟨h1, h2, h3, h4, h6, h5⟩
  · rintro ⟨h1, h2, h3, h4, h6, h5⟩
    exact ⟨h1, h2, h3, h4, h5, h6⟩

theorem siteViolationsFrom_nil_of_valid (sites : List SiteConfig) (i : Nat)
    (h : ∀ s ∈ sites, s.Validate = []) : siteViolationsFrom i sites = [] := by
  induction sites generalizing i with
  | nil => rfl
  | cons s rest ih =>
    have hs : s.Validate = [] := h s (List.mem_cons_self _ _)
    have hr : ∀ t ∈ rest, t.Validate = [] := fun t ht => h t (List.mem_cons_of_mem _ ht)
    simp [siteViolationsFrom, hs, ih _ hr]

theorem siteViolationsFrom_append (pre post : List SiteConfig) (i : Nat) :
    siteViolationsFrom i (pre ++ post) =
      siteViolationsFrom i pre ++ siteViolationsFrom (i + pre.length) post := by
  induction pre generalizing i with
  | nil => simp [siteViolationsFrom]
  | cons s rest ih =>
    have hi : i + 1 + rest.length = i + (rest.length + 1) := by omega
    show siteViolationsFrom i (s :: (rest ++ post)) = _
    simp only [siteViolationsFrom, ih, List.append_assoc, List.length_cons, hi]

theorem mem_ite_singleton {p : Prop} [Decidable p] (m m' : String) :
    m ∈ (if p then [m'] else []) ↔ p ∧ m = m' := by
  by_cases h : p <;> simp [h]

theorem mem_data_of_slashCount_one (repo : String) (h : slashCount repo = 1) :
    '/' ∈ repo.data := by
  unfold slashCount at h
  exact List.count_pos_iff.mp (by omega)

theorem ne_empty_of_slashCount_one (repo : String) (h : slashCount repo = 1) : repo ≠ "" := by
  intro he
  subst he
  simp [slashCount] at h

theorem rootViolations_nil (d : DeploymentConfig) (ho : d.Organization ≠ "")
    (hs : d.Server ≠ "") (hr : slashCount d.GithubRepository = 1) (hn : d.Sites ≠ []) :
    rootViolations d = [] := by
  unfold rootViolations
  simp [ho, hs, hn, ne_empty_of_slashCount_one _ hr, mem_data_of_slashCount_one _ hr]

/-- `SetDefaults` in closed form. -/
theorem setDefaults_eq (s : SiteConfig) :
    s.SetDefaults = { withDefaultedFields s with CloneRepository := true } := by
  unfold SiteConfig.SetDefaults withDefaultedFields
  by_cases h1 : s.DomainMode = "" <;> by_cases h2 : s.WWWRedirectType = "" <;>
    by_cases h3 : s.RootDir = "" <;> by_cases h4 : s.WebDir = "" <;>
    by_cases h5 : s.ProjectType = "" <;> cases h6 : s.CloneRepository <;>
    simp [h1, h2, h3, h4, h5, h6]
  cases s
  simp_all


/-! ## Validation -/

/-- C1: a model that satisfies every invariant of the data model
(organization and server non-empty, repository with exactly one `/`, at least
one site, every site satisfying the site invariants) is accepted:
`DeploymentConfig.Validate` returns the empty list. -/
theorem validate_nil_of_invariant (d : DeploymentConfig) (h : DeploymentInvariant d) :
    d.Validate = [] := by
  obtain ⟨ho, hs, hr, hn, hsites⟩ := h
  rw [deploymentValidate_eq, rootViolations_nil d ho hs hr hn, List.nil_append]
  exact siteViolationsFrom_nil_of_valid _ _
    (fun s hs => (siteValidate_nil_iff s).mpr (hsites s hs))

theorem validate_nil_of_invariant_witness :
    DeploymentInvariant (acmeConfig [{ Name := "app" }, { Name := "api", PHPVersion := "php84" }])
      ∧ (acmeConfig [{ Name := "app" }, { Name := "api", PHPVersion := "php84" }]).Validate
          = [] :=
  ⟨by decide, validate_nil_of_invariant _ (by decide)⟩

/-- C2: whatever the other fields hold, the list returned by
`DeploymentConfig.Validate` is non-empty and contains `Organization is
required` when the organization is empty, `Server is required` when the
server is empty, `GitHub repository is required` when the repository is
empty, and `At least one site must be configured` when there is no site. -/
theorem validate_reports_missing_root_fields (d : DeploymentConfig) :
    (d.Organization = "" → "Organization is required" ∈ d.Validate ∧ d.Validate ≠ []) ∧
    (d.Server = "" → "Server is required" ∈ d.Validate ∧ d.Validate ≠ []) ∧
    (d.GithubRepository = "" →
      "GitHub repository is required" ∈ d.Validate ∧ d.Validate ≠ []) ∧
    (d.Sites = [] →
      "At least one site must be configured" ∈ d.Validate ∧ d.Validate ≠ []) := by
  have key : ∀ m : String, m ∈ rootViolations d → m ∈ d.Validate ∧ d.Validate ≠ [] := by
    intro m hm
    have hmem : m ∈ d.Validate := by
      rw [deploymentValidate_eq]
      exact List.mem_append_left _ hm
    exact ⟨hmem, List.ne_nil_of_mem hmem⟩
  refine ⟨fun h => key _ ?_, fun h => key _ ?_, fun h => key _ ?_, fun h => key _ ?_⟩ <;>
    simp [rootViolations, h]

theorem validate_reports_missing_root_fields_witness :
    ("Organization is required" ∈ DeploymentConfig.Validate { Sites := [{ Name := "app" }] }
      ∧ DeploymentConfig.Validate { Sites := [{ Name := "app" }] } ≠ [])
    ∧ ("Server is required" ∈ DeploymentConfig.Validate { Sites := [{ Name := "app" }] }
      ∧ DeploymentConfig.Validate { Sites := [{ Name := "app" }] } ≠ [])
    ∧ ("GitHub repository is required" ∈
        DeploymentConfig.Validate { Sites := [{ Name := "app" }] }
      ∧ DeploymentConfig.Validate { Sites := [{ Name := "app" }] } ≠ [])
    ∧ ("At least one site must be configured" ∈ (acmeConfig []).Validate
      ∧ (acmeConfig []).Validate ≠ []) :=
  ⟨(validate_reports_missing_root_fields { Sites := [{ Name := "app" }] }).1 rfl,
   (validate_reports_missing_root_fields { Sites := [{ Name := "app" }] }).2.1 rfl,
   (validate_reports_missing_root_fields { Sites := [{ Name := "app" }] }).2.2.1 rfl,
   (validate_reports_missing_root_fields (acmeConfig [])).2.2.2 rfl⟩

/-- C3: the code misses the claim.  The repository `a/b/c` has two `/`, so it
is not of the form `owner/repo` that the prompt asks for and the violation
message names, yet `DeploymentConfig.Validate` returns the empty list for a
model that is otherwise valid: the check only tests that a `/` is present. -/
theorem validate_accepts_two_slashes :
    slashCount twoSlashConfig.GithubRepository ≠ 1 ∧ twoSlashConfig.Validate = [] := by
  decide

/-- The part of the repository format that the check does enforce: for every
model whose repository contains no `/` (the empty repository included),
`DeploymentConfig.Validate` returns a non-empty list
containing a repository violation message: `GitHub repository is required`
when the repository is empty and `GitHub repository must be in format
'owner/repo'` otherwise. -/
theorem validate_flags_repository_without_slash (d : DeploymentConfig)
    (h : slashCount d.GithubRepository = 0) :
    d.Validate ≠ [] ∧
      (if d.GithubRepository = "" then "GitHub repository is required"
        else "GitHub repository must be in format 'owner/repo'") ∈ d.Validate := by
  have hno : '/' ∉ d.GithubRepository.data := List.count_eq_zero.mp h
  have hmem : (if d.GithubRepository = "" then "GitHub repository is required"
        else "GitHub repository must be in format 'owner/repo'") ∈ d.Validate := by
    rw [deploymentValidate_eq]
    apply List.mem_append_left
    unfold rootViolations
    by_cases he : d.GithubRepository = "" <;> simp [he, hno]
  exact ⟨List.ne_nil_of_mem hmem, hmem⟩

theorem validate_flags_repository_without_slash_witness :
    slashCount (DeploymentConfig.GithubRepository
        { Organization := "acme", Server := "web1", GithubRepository := "site",
          Sites := [{ Name := "app" }] }) = 0 ∧
      DeploymentConfig.Validate
        { Organization := "acme", Server := "web1", GithubRepository := "site",
          Sites := [{ Name := "app" }] }
        = ["GitHub repository must be in format 'owner/repo'"] ∧
      "GitHub repository must be in format 'owner/repo'" ∈ DeploymentConfig.Validate
        { Organization := "acme", Server := "web1", GithubRepository := "site",
          Sites := [{ Name := "app" }] } :=
  ⟨by decide, by decide,
   (validate_flags_repository_without_slash
      { Organization := "acme", Server := "web1", GithubRepository := "site",
        Sites := [{ Name := "app" }] } (by decide)).2⟩

/-- C4: `DeploymentConfig.Validate` returns the root-level violations (in the
order organization, server, repository, site count) followed by, for each
site in list order with 1-based index `i`, every message `m` of that site's
`SiteConfig.Validate` rendered `Site i (name): m` with the site's name
verbatim. -/
theorem validate_eq_root_then_sites (d : DeploymentConfig) :
    d.Validate = rootViolations d ++ siteViolationsFrom 1 d.Sites :=
  deploymentValidate_eq d

/-- C5: `SiteConfig.Validate` reports `isolated_user is required when
isolated is true` if and only if `isolated` is true and `isolatedUser` is
empty. -/
theorem isolation_flagged_iff (s : SiteConfig) :
    "isolated_user is required when isolated is true" ∈ s.Validate ↔
      (s.Isolated = true ∧ s.IsolatedUser = "") := by
  rw [siteValidate_parts]
  simp only [List.mem_append, mem_ite_singleton]
  simp

/-- C6: `SiteConfig.Validate` returns the empty list exactly when the site
invariants hold (name non-empty, each enum field unset or in its option set,
`phpVersion` empty or starting with `php`, `isolated` implies `isolatedUser`
non-empty), and a site that agrees with `s` on the fields these invariants
read is accepted exactly when `s` is. -/
theorem site_checks_exact (s : SiteConfig) :
    (s.Validate = [] ↔ SiteInvariant s) ∧
    ∀ t : SiteConfig, checkedFields t = checkedFields s →
      (t.Validate = [] ↔ s.Validate = []) := by
  refine ⟨siteValidate_nil_iff s, fun t ht => ?_⟩
  have heq : t.Validate = s.Validate := by
    simp only [checkedFields, Prod.mk.injEq] at ht
    obtain ⟨h1, h2, h3, h4, h5, h6, h7⟩ := ht
    rw [siteValidate_parts, siteValidate_parts, h1, h2, h3, h4, h5, h6, h7]
  rw [heq]

theorem site_checks_exact_witness :
    (SiteConfig.Validate
        { Name := "app", RootDir := "src", Certificate := true,
          Environment := "APP_ENV=production", CloneRepository := true } = [] ↔
      SiteConfig.Validate { Name := "app" } = []) :=
  (site_checks_exact { Name := "app" }).2
    { Name := "app", RootDir := "src", Certificate := true,
      Environment := "APP_ENV=production", CloneRepository := true } rfl

/-- C7: when the root fields are valid and every site satisfies the site
invariants except that the site at 1-based position `k = pre.length + 1` (the
one after the sites `pre`) has an empty name, `DeploymentConfig.Validate`
returns exactly the one message `Site k (): Site name is required`. -/
theorem validate_single_unnamed_site (d : DeploymentConfig) (pre post : List SiteConfig)
    (s : SiteConfig) (ho : d.Organization ≠ "") (hsv : d.Server ≠ "")
    (hr : slashCount d.GithubRepository = 1) (hsites : d.Sites = pre ++ s :: post)
    (hpre : ∀ t ∈ pre, SiteInvariant t) (hpost : ∀ t ∈ post, SiteInvariant t)
    (hname : s.Name = "") (hfields : SiteFieldInvariant s) :
    d.Validate = ["Site " ++ toString (pre.length + 1) ++ " (): Site name is required"] := by
  have hn : d.Sites ≠ [] := by
    rw [hsites]
    exact List.append_ne_nil_of_right_ne_nil _ (List.cons_ne_nil _ _)
  have hsv' : s.Validate = ["Site name is required"] := by
    obtain ⟨h1, h2, h3, h4, h5⟩ := hfields
    rw [siteValidate_parts]
    have c2 : ¬ (s.DomainMode ≠ "" ∧ s.DomainMode ≠ "on-forge" ∧ s.DomainMode ≠ "custom") :=
      fun ⟨a, b, c⟩ => h1.elim a (fun h => h.elim b c)
    have c3 : ¬ (s.WWWRedirectType ≠ "" ∧ s.WWWRedirectType ≠ "none"
        ∧ s.WWWRedirectType ≠ "from-www" ∧ s.WWWRedirectType ≠ "to-www") :=
      fun ⟨a, b, c, e⟩ => h2.elim a (fun h => h.elim b (fun h => h.elim c e))
    have c4 : ¬ (s.ProjectType ≠ "" ∧ s.ProjectType ≠ "laravel" ∧ s.ProjectType ≠ "other") :=
      fun ⟨a, b, c⟩ => h3.elim a (fun h => h.elim b c)
    have c5 : ¬ (s.Isolated = true ∧ s.IsolatedUser = "") := fun hc => h5 hc.1 hc.2
    have c6 : ¬ (s.PHPVersion ≠ "" ∧ ¬ "php".data <+: s.PHPVersion.data) :=
      fun ⟨a, b⟩ => h4.elim a b
    rw [if_pos hname, if_neg c2, if_neg c3, if_neg c4, if_neg c5, if_neg c6]
    rfl
  rw [deploymentValidate_eq, rootViolations_nil d ho hsv hr hn, hsites, List.nil_append,
    siteViolationsFrom_append,
    siteViolationsFrom_nil_of_valid pre _ (fun t ht => (siteValidate_nil_iff t).mpr (hpre t ht)),
    List.nil_append]
  show List.map _ s.Validate ++ siteViolationsFrom _ post = _
  rw [siteViolationsFrom_nil_of_valid post _
    (fun t ht => (siteValidate_nil_iff t).mpr (hpost t ht)), hsv', hname, Nat.add_comm]
  simp [String.append_assoc]

theorem validate_single_unnamed_site_witness :
    (acmeConfig [{ Name := "app" }, { }]).Validate = ["Site 2 (): Site name is required"] :=
  (validate_single_unnamed_site (acmeConfig [{ Name := "app" }, { }]) [{ Name := "app" }] [] { }
    (by decide) (by decide) (by decide) rfl (by decide) (by decide) rfl (by decide)).trans
    (by decide)

/-! ## Defaults -/

/-- C8: `SetDefaults` fills `domainMode`, `wwwRedirectType`, `rootDir`,
`webDir` and `projectType` with `on-forge`, `none`, `.`, `public` and
`laravel` where they were empty, keeps their value where they were not, and
leaves every other field except `cloneRepository` unchanged; a site with only
the name `app` set comes out with exactly these five defaults and every other
field (`phpVersion`, `environment`, `processes`, `aliases`, ...) still empty. -/
theorem setDefaults_fills_defaults (s : SiteConfig) :
    { s.SetDefaults with CloneRepository := s.CloneRepository } = withDefaultedFields s ∧
    { SiteConfig.SetDefaults { Name := "app" } with CloneRepository := false } =
      { Name := "app", DomainMode := "on-forge", WWWRedirectType := "none", RootDir := ".",
        WebDir := "public", ProjectType := "laravel" } := by
  refine ⟨?_, by decide⟩
  rw [setDefaults_eq]
  cases s
  rfl

/-- C9: `SetDefaults` is idempotent: applying it twice gives the same site,
field by field, as applying it once. -/
theorem setDefaults_idempotent (s : SiteConfig) :
    s.SetDefaults.SetDefaults = s.SetDefaults := by
  rw [setDefaults_eq s, setDefaults_eq]
  unfold withDefaultedFields
  by_cases h1 : s.DomainMode = "" <;> by_cases h2 : s.WWWRedirectType = "" <;>
    by_cases h3 : s.RootDir = "" <;> by_cases h4 : s.WebDir = "" <;>
    by_cases h5 : s.ProjectType = "" <;>
    simp [h1, h2, h3, h4, h5]


/-! ## The clone-repository answer -/

theorem setDefaults_cloneRepository (s : SiteConfig) : s.SetDefaults.CloneRepository = true := by
  rw [setDefaults_eq]

theorem buildSite_cloneRepository (basicInfo : SiteBasicInfo) (repoSettings : RepositorySettings)
    (phpSettings : PHPSettings) (deploymentScript environment envFile : String)
    (processes : List Process) (scheduler : Bool) (aliases : List String)
    (nginxConfig : NginxConfig) (certificate : Bool) (isolation : Isolation)
    (zeroDowntime : ZeroDowntime) :
    (buildSite basicInfo repoSettings phpSettings deploymentScript environment envFile
      processes scheduler aliases nginxConfig certificate isolation
      zeroDowntime).CloneRepository = true := by
  unfold buildSite
  exact setDefaults_cloneRepository _

/-- The result of a bind of two prompts. -/
theorem ask_bind_eq {α β : Type} (x : Ask α) (f : α → Ask β) (answers : List Answer) :
    (x >>= f) answers =
      match x answers with
      | .ok (a, rest) => f a rest
      | .error e => .error e := by
  show (x answers >>= fun p => f p.1 p.2) = _
  cases x answers <;> rfl

/-- C10 fails on the code: every successful run of `PromptCompleteSite`
returns a site with `cloneRepository = true`, whatever was answered; in
particular the run `cloneDeclinedAnswers`, in which the answer to "Clone
repository during site creation?" is no (`PromptSiteRepositorySettings`
delivers `clone_repository = false`), returns a site with `cloneRepository =
true`. -/
theorem promptCompleteSite_clone_always_true :
    (∀ (readFile : String → Except String String) (defaultBranch : String) (siteNumber : Nat)
        (answers : List Answer),
      match PromptCompleteSite readFile defaultBranch siteNumber answers with
      | .ok (site, _) => site.CloneRepository = true
      | .error _ => True) ∧
    (PromptSiteRepositorySettings "main"
        [.confirm false, .text "", .text "", .confirm false]).toOption.map
      (fun r => r.1.clone_repository) = some false ∧
    (PromptCompleteSite noFiles "main" 1 cloneDeclinedAnswers).toOption.map
      (fun r => (r.1.Name, r.1.CloneRepository)) = some ("app", true) := by
  refine ⟨?_, by decide, by decide⟩
  intro readFile defaultBranch siteNumber answers
  unfold PromptCompleteSite
  simp only [ask_bind_eq]
  split
  · next site rest h =>
    repeat' split at h
    all_goals first
      | exact Except.noConfusion h
      | (cases h; exact buildSite_cloneRepository _ _ _ _ _ _ _ _ _ _ _ _ _)
  · trivial


/-! ## Validation after defaulting -/

/-- C11: default values never mask a missing required field:
`SiteConfig.Validate` returns the same list of messages for a site after
`SetDefaults` as for the site before it. -/
theorem validate_setDefaults_eq (s : SiteConfig) : s.SetDefaults.Validate = s.Validate := by
  rw [siteValidate_parts s.SetDefaults, siteValidate_parts s, setDefaults_eq]
  simp only [withDefaultedFields]
  by_cases h1 : s.DomainMode = "" <;> by_cases h2 : s.WWWRedirectType = "" <;>
    by_cases h3 : s.ProjectType = "" <;> simp [h1, h2, h3]

/-! ## Shared paths -/

/-- C12: `SharedPath.MarshalYAML` returns no error; it returns the scalar
`sp.From` exactly when `sp.To` is empty or equal to `sp.From`, and otherwise a
two-entry mapping binding `from` to `sp.From` and `to` to `sp.To`; so
`{from: a, to: ""}` and `{from: a, to: a}` give the scalar `a`, and
`{from: a, to: b}` gives a from/to pair. -/
theorem sharedPath_marshalYAML (sp : SharedPath) :
    sp.MarshalYAML.2 = none ∧
    (sp.MarshalYAML.1 = YAMLValue.scalar sp.From ↔ (sp.To = "" ∨ sp.To = sp.From)) ∧
    (¬ (sp.To = "" ∨ sp.To = sp.From) →
      ∃ m, sp.MarshalYAML.1 = YAMLValue.mapping m ∧ m.length = 2 ∧
        m.lookup "from" = some sp.From ∧ m.lookup "to" = some sp.To) ∧
    SharedPath.MarshalYAML { From := "a", To := "" } = (YAMLValue.scalar "a", none) ∧
    SharedPath.MarshalYAML { From := "a", To := "a" } = (YAMLValue.scalar "a", none) ∧
    SharedPath.MarshalYAML { From := "a", To := "b" } =
      (YAMLValue.mapping [("from", "a"), ("to", "b")], none) := by
  have hc : (sp.To == "" || sp.From == sp.To) = true ↔ (sp.To = "" ∨ sp.To = sp.From) := by
    rw [Bool.or_eq_true, beq_iff_eq, beq_iff_eq]
    exact or_congr Iff.rfl eq_comm
  refine ⟨?_, ?_, ?_, by decide, by decide, by decide⟩
  · unfold SharedPath.MarshalYAML
    split <;> rfl
  · unfold SharedPath.MarshalYAML
    by_cases h : (sp.To == "" || sp.From == sp.To) = true
    · simp only [h, if_true, true_iff]
      exact hc.mp h
    · rw [if_neg h]
      constructor
      · intro hcontra
        cases hcontra
      · exact fun hcond => absurd (hc.mpr hcond) h
  · intro hno
    have h : ¬ (sp.To == "" || sp.From == sp.To) = true := fun h => hno (hc.mp h)
    refine ⟨[("from", sp.From), ("to", sp.To)], ?_, rfl, ?_, ?_⟩
    · unfold SharedPath.MarshalYAML
      rw [if_neg h]
      rfl
    · rfl
    · rfl

theorem sharedPath_marshalYAML_witness :
    ∃ m, (SharedPath.MarshalYAML { From := "storage", To := "shared/storage" }).1 =
        YAMLValue.mapping m ∧ m.length = 2 ∧
      m.lookup "from" = some "storage" ∧ m.lookup "to" = some "shared/storage" :=
  (sharedPath_marshalYAML { From := "storage", To := "shared/storage" }).2.2.1 (by decide)


/-! ## The validation gate of `runGenerate` -/

theorem length_pos_of_ne_nil {α : Type} (l : List α) (h : l ≠ []) : l.length > 0 :=
  List.length_pos.mpr h

theorem generateFiles_of_ops_ne_nil (w : World) (flags : Flags) (answers : List Answer)
    (h : (runGenerate w flags answers).ops ≠ []) :
    ∃ config rest, assembleConfig w.readFile answers = .ok (config, rest) ∧
      config.Validate = [] := by
  unfold runGenerate at h
  split at h
  · exact absurd rfl h
  · next config rest heq =>
    refine ⟨config, rest, heq, ?_⟩
    by_cases hv : config.Validate = []
    · exact hv
    · simp only [length_pos_of_ne_nil _ hv, if_true] at h
      exact absurd rfl h

/-- C14: whenever `DeploymentConfig.Validate` returns a non-empty list for the
model assembled by `runGenerate`, `runGenerate` returns a non-nil error (the
exit status is 1) and issues no directory creation and no file write;
conversely, when `runGenerate` issues any file-system operation, `Validate`
returned the empty list for the assembled model. -/
theorem runGenerate_validation_gate (w : World) (flags : Flags) (answers : List Answer) :
    (∀ config rest, assembleConfig w.readFile answers = .ok (config, rest) →
      config.Validate ≠ [] →
        (runGenerate w flags answers).err ≠ none ∧ (runGenerate w flags answers).ops = [] ∧
          Execute w flags answers = 1) ∧
    ((runGenerate w flags answers).ops ≠ [] →
      ∃ config rest, assembleConfig w.readFile answers = .ok (config, rest) ∧
        config.Validate = []) := by
  refine ⟨fun config rest heq hv => ?_, generateFiles_of_ops_ne_nil w flags answers⟩
  have hr : runGenerate w flags answers =
      { err := some "configuration validation failed", ops := [] } := by
    unfold runGenerate
    rw [heq]
    simp only [length_pos_of_ne_nil _ hv, if_true]
  unfold Execute
  rw [hr]
  exact ⟨fun h => Option.noConfusion h, rfl, rfl⟩

theorem runGenerate_validation_gate_witness :
    ((runGenerate plainWorld {} noSiteAnswers).err ≠ none ∧
      (runGenerate plainWorld {} noSiteAnswers).ops = [] ∧
      Execute plainWorld {} noSiteAnswers = 1) ∧
    ∃ config rest, assembleConfig plainWorld.readFile oneSiteAnswers = .ok (config, rest) ∧
      config.Validate = [] :=
  ⟨(runGenerate_validation_gate plainWorld {} noSiteAnswers).1
      { Organization := "acme", Server := "web1", GithubRepository := "acme/site",
        GithubBranch := "main", Sites := [] } [] rfl (by decide),
   (runGenerate_validation_gate plainWorld {} oneSiteAnswers).2 (by decide)⟩

/-! ## Environment: inline or file, never both -/

/-- A property of every value that the continuation of a bind can deliver
holds of every value the bind delivers. -/
theorem ask_bind_yields {α β : Type} (x : Ask α) (f : α → Ask β) (P : β → Prop)
    (h : ∀ a answers b rest, f a answers = .ok (b, rest) → P b) :
    ∀ answers b rest, (x >>= f) answers = .ok (b, rest) → P b := by
  intro answers b rest hb
  rw [ask_bind_eq] at hb
  split at hb
  · exact h _ _ _ _ hb
  · exact Except.noConfusion hb

theorem ask_pure_yields {β : Type} (a : β) (P : β → Prop) (h : P a) :
    ∀ answers b rest, (pure a : Ask β) answers = .ok (b, rest) → P b := by
  intro answers b rest hb
  cases hb
  exact h

theorem promptEnvironmentVariables_exclusive (readFile : String → Except String String) :
    ∀ answers p rest, PromptEnvironmentVariables readFile answers = .ok (p, rest) →
      p.1 = "" ∨ p.2 = "" := by
  unfold PromptEnvironmentVariables
  apply ask_bind_yields
  intro envChoice
  split
  · apply ask_bind_yields
    intro useTemplate
    dsimp only
    split
    · apply ask_bind_yields
      intro templatePath
      cases readFile templatePath <;>
      · dsimp only
        apply ask_bind_yields
        intro y
        apply ask_bind_yields
        intro envVars
        exact ask_pure_yields _ _ (Or.inr rfl)
    · apply ask_bind_yields
      intro y
      apply ask_bind_yields
      intro envVars
      exact ask_pure_yields _ _ (Or.inr rfl)
  · split
    · apply ask_bind_yields
      intro envFile
      exact ask_pure_yields _ _ (Or.inl rfl)
    · exact ask_pure_yields _ _ (Or.inl rfl)

theorem buildSite_environment (basicInfo : SiteBasicInfo) (repoSettings : RepositorySettings)
    (phpSettings : PHPSettings) (deploymentScript environment envFile : String)
    (processes : List Process) (scheduler : Bool) (aliases : List String)
    (nginxConfig : NginxConfig) (certificate : Bool) (isolation : Isolation)
    (zeroDowntime : ZeroDowntime) :
    (buildSite basicInfo repoSettings phpSettings deploymentScript environment envFile
      processes scheduler aliases nginxConfig certificate isolation
      zeroDowntime).Environment = environment ∧
    (buildSite basicInfo repoSettings phpSettings deploymentScript environment envFile
      processes scheduler aliases nginxConfig certificate isolation
      zeroDowntime).EnvFile = envFile := by
  unfold buildSite
  simp only [setDefaults_eq, withDefaultedFields]
  repeat' split
  all_goals exact ⟨rfl, rfl⟩

/-- C15: environment configuration is never both inline and file: a
successful `PromptEnvironmentVariables` returns a pair `(environment,
envFile)` with at least one component empty, and every site returned by
`PromptCompleteSite` has `environment` empty or `envFile` empty. -/
theorem environment_never_inline_and_file (readFile : String → Except String String)
    (answers : List Answer) :
    (∀ environment envFile rest,
      PromptEnvironmentVariables readFile answers = .ok ((environment, envFile), rest) →
        environment = "" ∨ envFile = "") ∧
    (∀ defaultBranch siteNumber site rest,
      PromptCompleteSite readFile defaultBranch siteNumber answers = .ok (site, rest) →
        site.Environment = "" ∨ site.EnvFile = "") := by
  refine ⟨fun environment envFile rest h =>
    promptEnvironmentVariables_exclusive readFile answers (environment, envFile) rest h, ?_⟩
  intro defaultBranch siteNumber
  revert answers
  unfold PromptCompleteSite
  apply ask_bind_yields; intro basicInfo
  apply ask_bind_yields; intro repoSettings
  apply ask_bind_yields; intro phpSettings
  apply ask_bind_yields; intro deploymentScript
  intro answers site rest h
  rw [ask_bind_eq] at h
  split at h
  · next env rest1 henv =>
    have hex := promptEnvironmentVariables_exclusive readFile _ _ _ henv
    obtain ⟨environment, envFile⟩ := env
    revert h
    revert rest site
    generalize rest1 = answers1
    revert answers1
    dsimp only
    apply ask_bind_yields; intro processes
    apply ask_bind_yields; intro scheduler
    apply ask_bind_yields; intro aliases
    apply ask_bind_yields; intro nginxConfig
    apply ask_bind_yields; intro certificate
    apply ask_bind_yields; intro isolation
    apply ask_bind_yields; intro zeroDowntime
    apply ask_pure_yields
    rw [(buildSite_environment _ _ _ _ _ _ _ _ _ _ _ _ _).1,
      (buildSite_environment _ _ _ _ _ _ _ _ _ _ _ _ _).2]
    exact hex
  · exact Except.noConfusion h

theorem environment_never_inline_and_file_witness :
    (∃ p rest, PromptEnvironmentVariables noFiles inlineEnvAnswers = .ok (p, rest) ∧
      (p.1 = "" ∨ p.2 = "")) ∧
    (∃ site rest, PromptCompleteSite noFiles "main" 1 inlineEnvSiteAnswers = .ok (site, rest) ∧
      site.Environment = "APP_ENV=production" ∧ (site.Environment = "" ∨ site.EnvFile = "")) :=
  ⟨⟨("APP_ENV=production", ""), [], rfl,
      (environment_never_inline_and_file noFiles inlineEnvAnswers).1 "APP_ENV=production" "" []
        rfl⟩,
   ⟨_, [], rfl, rfl,
      (environment_never_inline_and_file noFiles inlineEnvSiteAnswers).2 "main" 1 _ [] rfl⟩⟩


/-! ## Determinism of the renderers -/

theorem sortedEntries_strict (m : List (String × String)) (hn : (m.map Prod.fst).Nodup) :
    List.Sorted entryLT (sortedEntries m) := by
  have hs : List.Sorted entryLE (sortedEntries m) := List.sorted_insertionSort entryLE m
  have hperm : (sortedEntries m).Perm m := List.perm_insertionSort entryLE m
  have hnd : ((sortedEntries m).map Prod.fst).Nodup := (hperm.map Prod.fst).nodup_iff.mpr hn
  have hpw : (sortedEntries m).Pairwise (fun a b => a.1 ≠ b.1) := List.pairwise_map.mp hnd
  exact (List.Pairwise.and hs hpw).imp (fun h => Or.inl (lt_of_le_of_ne h.1 h.2))

/-- The order in which a map with distinct keys lists its entries does not
change the order in which they are written. -/
theorem sortedEntries_eq_of_perm (m m' : List (String × String)) (hp : m.Perm m')
    (hn : (m.map Prod.fst).Nodup) : sortedEntries m = sortedEntries m' := by
  have hn' : (m'.map Prod.fst).Nodup := (hp.map Prod.fst).nodup_iff.mp hn
  refine List.eq_of_perm_of_sorted ?_ (sortedEntries_strict m hn) (sortedEntries_strict m' hn')
  exact (List.perm_insertionSort entryLE m).trans
    (hp.trans (List.perm_insertionSort entryLE m').symm)

theorem yamlMap_eq_of_perm (indent key : String) (m m' : List (String × String))
    (hp : m.Perm m') (hn : (m.map Prod.fst).Nodup) :
    yamlMap indent key m = yamlMap indent key m' := by
  unfold yamlMap yamlEntries
  rw [sortedEntries_eq_of_perm m m' hp hn, hp.length_eq]

theorem yamlSite_eq_of_same (s t : SiteConfig) (h : s.SameUpToMapOrder t) :
    yamlSite s = yamlSite t := by
  obtain ⟨hst, hp, hn⟩ := h
  generalize t.NginxTemplateVariables = templateVars at hst hp
  subst hst
  have hm := yamlMap_eq_of_perm "    " "nginx_template_variables" _ _ hp hn
  simp only [yamlSite, hm]

theorem yamlSites_eq_of_same (sites sites' : List SiteConfig)
    (h : List.Forall₂ SiteConfig.SameUpToMapOrder sites sites') :
    yamlSites sites = yamlSites sites' := by
  induction h with
  | nil => rfl
  | @cons s t rest rest' hst _ ih =>
    show yamlSite s ++ yamlSites rest = yamlSite t ++ yamlSites rest'
    rw [yamlSite_eq_of_same s t hst, ih]

/-- C13: both renderers are deterministic.  Two models that are the same
except for the order in which the `nginxTemplateVariables` maps of their
sites list their entries are rendered to the same text by
`GenerateForgeDeployYAML`, and to the same text by `GenerateGitHubWorkflow`
for every pipeline title, trigger branch and config file name; and the
from/to map of a shared path is written the same way whatever the order of
its two entries. -/
theorem renderers_deterministic (d e : DeploymentConfig) (h : d.SameUpToMapOrder e)
    (pipelineTitle triggerBranch configFileName : String) :
    GenerateForgeDeployYAML d = GenerateForgeDeployYAML e ∧
    GenerateGitHubWorkflow d pipelineTitle triggerBranch configFileName =
      GenerateGitHubWorkflow e pipelineTitle triggerBranch configFileName ∧
    ∀ m m' : List (String × String), m.Perm m' → (m.map Prod.fst).Nodup →
      yamlSharedPathValue (YAMLValue.mapping m) = yamlSharedPathValue (YAMLValue.mapping m') := by
  obtain ⟨hroot, hsites⟩ := h
  refine ⟨?_, rfl, ?_⟩
  · have hs := yamlSites_eq_of_same _ _ hsites
    generalize e.Sites = sites at hroot hs
    subst hroot
    unfold GenerateForgeDeployYAML
    rw [hs]
  · intro m m' hp hn
    show "      -" :: yamlEntries _ m = "      -" :: yamlEntries _ m'
    unfold yamlEntries
    rw [sortedEntries_eq_of_perm m m' hp hn]

theorem renderers_deterministic_witness :
    GenerateForgeDeployYAML
        (acmeConfig [templatedSite [("root", "/var/www"), ("port", "8080")]]) =
      GenerateForgeDeployYAML
        (acmeConfig [templatedSite [("port", "8080"), ("root", "/var/www")]]) ∧
    GenerateGitHubWorkflow
        (acmeConfig [templatedSite [("root", "/var/www"), ("port", "8080")]])
        "Deploy to Forge" "main" "forge-deploy.yml" =
      GenerateGitHubWorkflow
        (acmeConfig [templatedSite [("port", "8080"), ("root", "/var/www")]])
        "Deploy to Forge" "main" "forge-deploy.yml" :=
  ⟨(renderers_deterministic _ _
      ⟨rfl, List.Forall₂.cons ⟨rfl, List.Perm.swap _ _ _, by decide⟩ List.Forall₂.nil⟩
      "Deploy to Forge" "main" "forge-deploy.yml").1,
   (renderers_deterministic _ _
      ⟨rfl, List.Forall₂.cons ⟨rfl, List.Perm.swap _ _ _, by decide⟩ List.Forall₂.nil⟩
      "Deploy to Forge" "main" "forge-deploy.yml").2.1⟩

end ForgeDeploy
